import Mathlib

/-!
Verification development for the routed-fetcher module
(bwscanner/fetcher.py): proxy-port resolution, onion-routed endpoint
connection with circuit binding, scheme/TLS endpoint dispatch, and the
streaming SHA-1 digest body reader.
-/

/-! ## SHA-1 (model of hashlib.sha1 over byte lists) -/

/-- Rotate a 32-bit word left by n bits. -/
def rotl (n x : Nat) : Nat := ((x <<< n) ||| (x >>> (32 - n))) % 0x100000000

/-- Combine four bytes (big-endian) into one 32-bit word. -/
def wordOfBytes (a b c d : Nat) : Nat := ((a * 256 + b) * 256 + c) * 256 + d

/-- Group a byte list into big-endian 32-bit words. -/
def bytesToWords : List Nat → List Nat
  | a :: b :: c :: d :: rest => wordOfBytes a b c d :: bytesToWords rest
  | _ => []

/-- Big-endian byte encoding of n on k bytes. -/
def toBytesBE : Nat → Nat → List Nat
  | 0, _ => []
  | k + 1, n => toBytesBE k (n / 256) ++ [n % 256]

/-- SHA-1 message padding: 0x80, zeros to 56 mod 64, 8-byte bit length. -/
def sha1pad (msg : List Nat) : List Nat :=
  let ml := msg.length
  msg ++ 128 :: List.replicate ((119 - ml % 64) % 64) 0 ++ toBytesBE 8 (ml * 8)

/-- Extend the 16 chunk words to the 80-word message schedule. -/
def extendWords : List Nat → Nat → List Nat
  | ws, 0 => ws
  | ws, k + 1 =>
    let i := ws.length
    extendWords
      (ws ++ [rotl 1 (((ws.getD (i - 3) 0 ^^^ ws.getD (i - 8) 0) ^^^
        ws.getD (i - 14) 0) ^^^ ws.getD (i - 16) 0)]) k

/-- Round function of SHA-1. -/
def sha1f (t b c d : Nat) : Nat :=
  if t < 20 then (b &&& c) ||| ((b ^^^ 0xffffffff) &&& d)
  else if t < 40 then (b ^^^ c) ^^^ d
  else if t < 60 then ((b &&& c) ||| (b &&& d)) ||| (c &&& d)
  else (b ^^^ c) ^^^ d

/-- Round constants of SHA-1. -/
def sha1k (t : Nat) : Nat :=
  if t < 20 then 0x5A827999
  else if t < 40 then 0x6ED9EBA1
  else if t < 60 then 0x8F1BBCDC
  else 0xCA62C1D6

/-- The five 32-bit words of SHA-1 internal state. -/
structure Sha1State where
  a : Nat
  b : Nat
  c : Nat
  d : Nat
  e : Nat
deriving DecidableEq

/-- One SHA-1 compression round at index t with schedule word w. -/
def sha1round (st : Sha1State) (tw : Nat × Nat) : Sha1State :=
  let tmp := (rotl 5 st.a + sha1f tw.1 st.b st.c st.d + st.e + sha1k tw.1 + tw.2)
    % 0x100000000
  ⟨tmp, st.a, rotl 30 st.b, st.c, st.d⟩

/-- Process one 64-byte chunk. -/
def processChunk (h : Sha1State) (chunk : List Nat) : Sha1State :=
  let ws := extendWords (bytesToWords chunk) 64
  let st := ((List.range 80).zip ws).foldl sha1round h
  ⟨(h.a + st.a) % 0x100000000, (h.b + st.b) % 0x100000000,
   (h.c + st.c) % 0x100000000, (h.d + st.d) % 0x100000000,
   (h.e + st.e) % 0x100000000⟩

/-- Split a list into n chunks of 64 bytes. -/
def chunkLoop : List Nat → Nat → List (List Nat)
  | _, 0 => []
  | l, n + 1 => l.take 64 :: chunkLoop (l.drop 64) n

/-- SHA-1 state after digesting a whole message. -/
def sha1words (msg : List Nat) : Sha1State :=
  let padded := sha1pad msg
  (chunkLoop padded (padded.length / 64)).foldl processChunk
    ⟨0x67452301, 0xEFCDAB89, 0x98BADCFE, 0x10325476, 0xC3D2E1F0⟩

/-- Lowercase hex digit for a value below 16. -/
def hexDigit (n : Nat) : Char := if n < 10 then Char.ofNat (48 + n) else Char.ofNat (87 + n)

/-- Lowercase hex rendering of n on k digits, most significant first. -/
def toHexWord : Nat → Nat → List Char
  | 0, _ => []
  | k + 1, n => toHexWord k (n / 16) ++ [hexDigit (n % 16)]

/-- Hex-encoded SHA-1 digest of a byte list (hashlib sha1 hexdigest). -/
def sha1hex (msg : List Nat) : String :=
  let h := sha1words msg
  String.mk (toHexWord 8 h.a ++ toHexWord 8 h.b ++ toHexWord 8 h.c ++
    toHexWord 8 h.d ++ toHexWord 8 h.e)

/-- Bytes of an ASCII string. -/
def strBytes (s : String) : List Nat := s.data.map Char.toNat

/-! ## hashingReadBodyProtocol (fetcher.py lines 106-145)

The hashlib digest state is modelled by the list of bytes fed so far:
update appends, and hexdigest computes sha1hex of that list, which is
exactly the incremental-equals-batch semantics of SHA-1. -/

/-- Termination reasons passed to connectionLost, per the checks in the
source: ResponseDone, PotentialDataLoss, or any other failure. -/
inductive Reason
  | responseDone
  | potentialDataLoss
  | otherFailure (e : String)
deriving DecidableEq

/-- Failures a hashingReadBody deferred can carry. -/
inductive DFailure
  | partialDownloadError (status : Nat) (message : String) (response : String)
  | streamFailure (e : String)
  | cancelledError
deriving DecidableEq

/-- State of a single-fire Twisted deferred carrying a hex digest. The
called flag of the source deferred is true exactly when this is not
pending. -/
inductive DResult
  | pending
  | success (value : String)
  | failure (f : DFailure)
deriving DecidableEq

/-- State of hashingReadBodyProtocol: constructor arguments status and
message, the associated deferred, and the hash state (bytes fed). -/
structure HashingProto where
  status : Nat
  message : String
  deferred : DResult
  hash_state : List Nat
deriving DecidableEq

/-- Protocol state right after construction (lines 114-118). -/
def initHashingProto (status : Nat) (message : String) : HashingProto :=
  ⟨status, message, DResult.pending, []⟩

/-- dataReceived (lines 120-124): feed a chunk to the hash state. -/
def dataReceived (p : HashingProto) (data : List Nat) : HashingProto :=
  { p with hash_state := p.hash_state ++ data }

/-- connectionLost (lines 126-145): if the deferred has not been called,
fire it according to the reason; otherwise only log a debug note. -/
def connectionLost (p : HashingProto) (reason : Reason) : HashingProto :=
  if p.deferred = DResult.pending then
    match reason with
    | Reason.responseDone =>
        { p with deferred := DResult.success (sha1hex p.hash_state) }
    | Reason.potentialDataLoss =>
        { p with deferred :=
            DResult.failure (DFailure.partialDownloadError p.status p.message (sha1hex p.hash_state)) }
    | Reason.otherFailure e =>
        { p with deferred := DResult.failure (DFailure.streamFailure e) }
  else p

/-- Deliver a whole body: construct the protocol, feed each chunk in
order through dataReceived, then signal termination. -/
def runBody (status : Nat) (message : String) (chunks : List (List Nat))
    (reason : Reason) : HashingProto :=
  connectionLost (chunks.foldl dataReceived (initHashingProto status message)) reason

/-! ## hashingReadBody and cancellation (fetcher.py lines 148-185)

The transport attached by deliverBody is modelled as Option Bool: none
when no transport was attached, some b where b says whether the
transport has an abortConnection method. -/

/-- getAbort (lines 173-174): the optional abortConnection capability. -/
def getAbort (transport : Option Bool) : Option Unit :=
  match transport with
  | some true => some ()
  | _ => none

/-- Observable state of a hashingReadBody call: the protocol state, how
many times abortConnection was invoked, and how many warnings were
issued at setup. -/
structure ReadBodyState where
  proto : HashingProto
  abortCalls : Nat
  warnings : Nat
deriving DecidableEq

/-- hashingReadBody setup (lines 170-185): build the protocol around a
fresh deferred and warn once when a transport was attached but has no
abortConnection method (lines 178-183). -/
def hashingReadBody (code : Nat) (phrase : String) (transport : Option Bool) :
    ReadBodyState :=
  { proto := initHashingProto code phrase
    abortCalls := 0
    warnings := if transport.isSome && (getAbort transport).isNone then 1 else 0 }

/-- Cancelling the returned deferred: Twisted runs the canceller (lines
159-168), which invokes abort when available, then fails a still-pending
deferred with CancelledError. -/
def cancelFetch (transport : Option Bool) (st : ReadBodyState) : ReadBodyState :=
  if st.proto.deferred = DResult.pending then
    let st1 := match getAbort transport with
      | some _ => { st with abortCalls := st.abortCalls + 1 }
      | none => st
    if st1.proto.deferred = DResult.pending then
      { st1 with proto := { st1.proto with deferred := DResult.failure DFailure.cancelledError } }
    else st1
  else st

/-! ## OnionRoutedTCPClientEndpoint.connect (fetcher.py lines 59-73) -/

/-- A host and port pair. -/
structure Address where
  host : String
  port : Nat
deriving DecidableEq

/-- Network-visible actions taken while connecting. -/
inductive NetEvent
  | tcpConnect (dest : Address)
  | circuitBind (localHost : String) (localPort : Nat) (path : List String)
deriving DecidableEq

/-- External facts about one connect call: the resolved proxy address,
the local address the OS assigns to the proxy TCP connection (what
transport.getHost returns), and the relay path of the endpoint. -/
structure ConnWorld where
  proxyAddr : Address
  localAddr : Address
  path : List String

/-- Connecting the or-endpoint (line 65): opens TCP to the proxy and
yields a protocol whose transport has the given local address. -/
def tcpEndpointConnect (dest : Address) (localAddr : Address) :
    List NetEvent × Address :=
  ([NetEvent.tcpConnect dest], localAddr)

/-- attacher.create_circuit (line 69): issues one circuit-bind request
for the given local address and path. -/
def create_circuit (localHost : String) (localPort : Nat) (path : List String) :
    List NetEvent :=
  [NetEvent.circuitBind localHost localPort path]

/-- Event trace of connect (lines 59-73): the or-endpoint callback chain
first connects TCP to the proxy, then _create_circ reads the local
address from transport.getHost and creates the circuit. -/
def connectTrace (w : ConnWorld) : List NetEvent :=
  let r := tcpEndpointConnect w.proxyAddr w.localAddr
  let hp := r.2
  r.1 ++ create_circuit hp.host hp.port w.path

/-- Whether an event is a circuit-bind request. -/
def isBind : NetEvent → Bool
  | NetEvent.circuitBind _ _ _ => true
  | _ => false

/-- Whether an event is a TCP connection to the proxy. -/
def isTcp : NetEvent → Bool
  | NetEvent.tcpConnect _ => true
  | _ => false

/-! ## Resolution of the SOCKS deferred (fetcher.py lines 67-73)

_create_circ wires the circuit deferred errback into the SOCKS
deferred and returns the SOCKS deferred; the events that can fire it
are a circuit-bind failure (via the errback on line 70) and the SOCKS
negotiation finishing. A fired deferred keeps its value. -/

/-- Events that can fire the SOCKS deferred returned by connect: the
errback wired from the circuit deferred, or the SOCKS negotiation
finishing with its protocol or with its own error. -/
inductive FetchEvent
  | bindFailed (e : String)
  | socksConnected (p : Nat)
  | socksFailed (e : String)
deriving DecidableEq

/-- Final value of the fetch. -/
inductive FetchResult
  | pending
  | connected (proto : Nat)
  | failed (e : String)
deriving DecidableEq

/-- Firing the single-fire deferred: the first event wins, later events
do not change the resolved value. -/
def fireFetch (st : FetchResult) (ev : FetchEvent) : FetchResult :=
  match st with
  | FetchResult.pending =>
    match ev with
    | FetchEvent.bindFailed e => FetchResult.failed e
    | FetchEvent.socksConnected p => FetchResult.connected p
    | FetchEvent.socksFailed e => FetchResult.failed e
  | st => st

/-- Value of the returned deferred after a sequence of firing events. -/
def resolveFetch (evs : List FetchEvent) : FetchResult :=
  evs.foldl fireFetch FetchResult.pending

/-! ## OnionRoutedAgent._getEndpoint (fetcher.py lines 85-103) -/

/-- Argument of _getEndpoint: either an object with host, port and
scheme attributes, or a bare scheme string (the AttributeError branch
of lines 86-90). -/
inductive ParsedURI
  | parsed (host : String) (port : Nat) (scheme : String)
  | schemeOnly (scheme : String)

/-- Configuration of the agent: whether a _wrapContextFactory attribute
and a _policyForHTTPS attribute are present, and the relay path. -/
structure AgentConfig where
  hasWrapContextFactory : Bool
  hasPolicyForHTTPS : Bool
  path : List String

/-- TLS trust policy built for a netloc (lines 96-99). -/
inductive TLSPolicy
  | wrapContext (host : Option String) (port : Option Nat)
  | browserLikeFor (host : Option String) (port : Option Nat)
deriving DecidableEq

/-- Endpoints _getEndpoint can return (lines 93-103). -/
inductive AgentEndpoint
  | onionRouted (host : Option String) (port : Option Nat) (path : List String)
  | tlsWrapped (policy : TLSPolicy) (inner : AgentEndpoint)
deriving DecidableEq

/-- Errors _getEndpoint can raise (lines 92 and 101). -/
inductive AgentError
  | schemeNotSupported (msg : String) (scheme : String)
  | notImplementedTLS (msg : String)
deriving DecidableEq

/-- Side effects started by _getEndpoint: constructing an
OnionRoutedTCPClientEndpoint kicks off proxy-port resolution (line 57). -/
inductive AgentEvent
  | proxyPortResolve
deriving DecidableEq

/-- _getEndpoint (lines 85-103): scheme dispatch, endpoint construction
and optional TLS wrapping, with the trace of started side effects. -/
def getEndpoint (cfg : AgentConfig) (uri : ParsedURI)
    (hostArg : Option String) (portArg : Option Nat) :
    List AgentEvent × Except AgentError AgentEndpoint :=
  let hps : Option String × Option Nat × String :=
    match uri with
    | ParsedURI.parsed h p s => (some h, some p, s)
    | ParsedURI.schemeOnly s => (hostArg, portArg, s)
  let host := hps.1
  let port := hps.2.1
  let scheme := hps.2.2
  if scheme ≠ "http" ∧ scheme ≠ "https" then
    ([], Except.error (AgentError.schemeNotSupported "unsupported scheme" scheme))
  else
    let events := [AgentEvent.proxyPortResolve]
    let endpoint := AgentEndpoint.onionRouted host port cfg.path
    if scheme = "https" then
      if cfg.hasWrapContextFactory then
        (events, Except.ok (AgentEndpoint.tlsWrapped (TLSPolicy.wrapContext host port) endpoint))
      else if cfg.hasPolicyForHTTPS then
        (events, Except.ok (AgentEndpoint.tlsWrapped (TLSPolicy.browserLikeFor host port) endpoint))
      else
        (events, Except.error (AgentError.notImplementedTLS "Cannot create a TLS validation policy."))
    else
      (events, Except.ok endpoint)

/-! ## get_orport_endpoint (fetcher.py lines 15-31) -/

/-- Python exceptions that extract_port_value can raise: StopIteration
from next on an exhausted generator, ValueError from int on a
non-numeric string. -/
inductive PyErr
  | stopIteration
  | valueError
deriving DecidableEq

/-- Python str.isdigit restricted to ASCII: nonempty and all digits. -/
def pyIsDigit (s : String) : Bool := !s.data.isEmpty && s.data.all Char.isDigit

deriving instance DecidableEq for Except

/-- Decimal value of a digit string (Python int on such strings). -/
def pyInt (s : String) : Nat := s.data.foldl (fun n c => n * 10 + (c.toNat - 48)) 0

/-- Python int as a fallible conversion, modelled on decimal-digit
strings: any other string raises ValueError. -/
def pyIntE (s : String) : Except PyErr Nat :=
  if pyIsDigit s then Except.ok (pyInt s) else Except.error PyErr.valueError

/-- The SocksPort configuration value: a single string or a list. -/
inductive SocksPortConf
  | scalar (s : String)
  | listed (l : List String)

/-- extract_port_value (lines 18-27): for a list, next picks the first
all-digit entry and raises StopIteration when there is none; then the
port is int of the value unless it is the DEFAULT sentinel, which
resolves to 9050. -/
def extract_port_value (conf : SocksPortConf) : Except PyErr Nat :=
  match conf with
  | SocksPortConf.listed l =>
    match l.find? pyIsDigit with
    | some port => if port ≠ "DEFAULT" then pyIntE port else Except.ok 9050
    | none => Except.error PyErr.stopIteration
  | SocksPortConf.scalar port =>
    if port ≠ "DEFAULT" then pyIntE port else Except.ok 9050

/-- A TCP4ClientEndpoint as built on line 30. -/
structure TCP4ClientEndpoint where
  host : String
  port : Nat
deriving DecidableEq

/-- get_orport_endpoint (lines 15-31): extract the port and build a TCP
endpoint to 127.0.0.1 on it; errors propagate through the deferred. -/
def get_orport_endpoint (conf : SocksPortConf) : Except PyErr TCP4ClientEndpoint :=
  Except.map (fun port => TCP4ClientEndpoint.mk "127.0.0.1" port)
    (extract_port_value conf)


/-! ## Theorems -/

set_option maxRecDepth 40000

/-- Folding dataReceived over chunks appends their concatenation to the
hash state and changes nothing else. -/
theorem foldl_dataReceived (chunks : List (List Nat)) (p : HashingProto) :
    chunks.foldl dataReceived p = { p with hash_state := p.hash_state ++ chunks.flatten } := by
  induction chunks generalizing p with
  | nil => simp
  | cons c cs ih => simp [dataReceived, ih]

/-- C1: for every sequence of body chunks delivered to the digest
reader, a clean ResponseDone termination fires the deferred with the
SHA-1 hex digest of the concatenation of the chunks in order. -/
theorem C1_clean_completion_yields_digest (status : Nat) (message : String)
    (chunks : List (List Nat)) :
    (runBody status message chunks Reason.responseDone).deferred
      = DResult.success (sha1hex chunks.flatten) := by
  simp [runBody, foldl_dataReceived, connectionLost, initHashingProto]

/-- C4: a PotentialDataLoss termination with the deferred still pending
fails the deferred with a PartialDownloadError carrying the digest of
exactly the bytes received so far; concretely, chunks "hello " then
"world" yield the digest of "hello world". -/
theorem C4_potential_data_loss_partial_digest (status : Nat) (message : String)
    (chunks : List (List Nat)) :
    (runBody status message chunks Reason.potentialDataLoss).deferred
        = DResult.failure
            (DFailure.partialDownloadError status message (sha1hex chunks.flatten)) ∧
    (runBody 200 "OK" [strBytes "hello ", strBytes "world"]
        Reason.potentialDataLoss).deferred
      = DResult.failure (DFailure.partialDownloadError 200 "OK"
          "2aae6c35c94fcfb415dbe95f408b9ce91ee846ed") := by
  constructor
  · simp [runBody, foldl_dataReceived, connectionLost, initHashingProto]
  · decide

/-- C5: once the deferred has fired, any further termination signal
leaves the whole protocol state, its resolved value included, unchanged
and raises nothing. -/
theorem C5_second_termination_signal_noop (p : HashingProto) (reason : Reason)
    (h : p.deferred ≠ DResult.pending) :
    connectionLost p reason = p := by
  simp [connectionLost, h]

/-- Witness for C5 at a concrete already-resolved state and a concrete
duplicate close signal. -/
theorem C5_second_termination_signal_noop_witness :
    connectionLost ⟨200, "OK", DResult.success "d", []⟩ Reason.responseDone
      = ⟨200, "OK", DResult.success "d", []⟩ :=
  C5_second_termination_signal_noop ⟨200, "OK", DResult.success "d", []⟩
    Reason.responseDone (by decide)

/-- C6: cancelling a pending fetch invokes abortConnection exactly once
when the transport has one and never otherwise; in both cases the
deferred resolves with CancelledError; and setup warns exactly once when
the attached transport lacks abortConnection and not when it has one. -/
theorem C6_cancellation_abort_and_warning (code : Nat) (phrase : String)
    (hasAbort : Bool) (st : ReadBodyState)
    (hpending : st.proto.deferred = DResult.pending) :
    (cancelFetch (some hasAbort) st).abortCalls
        = (if hasAbort = true then st.abortCalls + 1 else st.abortCalls) ∧
    (cancelFetch (some hasAbort) st).proto.deferred
        = DResult.failure DFailure.cancelledError ∧
    (hashingReadBody code phrase (some false)).warnings = 1 ∧
    (hashingReadBody code phrase (some true)).warnings = 0 := by
  cases hasAbort <;>
    simp [cancelFetch, getAbort, hpending, hashingReadBody]

/-- Witness for C6 on a fresh pending read with and without the abort
capability. -/
theorem C6_cancellation_abort_and_warning_witness :
    (cancelFetch (some true) (hashingReadBody 200 "OK" (some true))).abortCalls
        = (if true = true then (hashingReadBody 200 "OK" (some true)).abortCalls + 1
           else (hashingReadBody 200 "OK" (some true)).abortCalls) ∧
    (cancelFetch (some true) (hashingReadBody 200 "OK" (some true))).proto.deferred
        = DResult.failure DFailure.cancelledError ∧
    (hashingReadBody 200 "OK" (some false)).warnings = 1 ∧
    (hashingReadBody 200 "OK" (some true)).warnings = 0 :=
  C6_cancellation_abort_and_warning 200 "OK" true
    (hashingReadBody 200 "OK" (some true)) (by decide)

/-- C2: the connect trace contains exactly one circuit-bind request,
its arguments are the local address of the proxy TCP connection and the
endpoint path, exactly one proxy TCP connection is opened, and the TCP
connection strictly precedes the bind request in the trace. -/
theorem C2_bind_once_after_tcp_with_local_endpoint (w : ConnWorld) :
    (connectTrace w).filter isBind
        = [NetEvent.circuitBind w.localAddr.host w.localAddr.port w.path] ∧
    (connectTrace w).filter isTcp = [NetEvent.tcpConnect w.proxyAddr] ∧
    (connectTrace w).findIdx isTcp < (connectTrace w).findIdx isBind := by
  refine ⟨?_, ?_, ?_⟩ <;>
    simp [connectTrace, tcpEndpointConnect, create_circuit, isBind, isTcp,
      List.filter, List.findIdx, List.findIdx.go]

/-- A fired deferred is never changed by later events. -/
theorem foldl_fireFetch_resolved (st : FetchResult) (h : st ≠ FetchResult.pending)
    (evs : List FetchEvent) : evs.foldl fireFetch st = st := by
  induction evs with
  | nil => rfl
  | cons e es ih =>
    have hst : fireFetch st e = st := by
      cases st with
      | pending => exact absurd rfl h
      | connected p => rfl
      | failed e => rfl
    rw [List.foldl_cons, hst, ih]

/-- C3: when the circuit-bind failure reaches the still-pending SOCKS
deferred first, the fetch resolves with the bind error, whatever SOCKS
events follow in whatever order. -/
theorem C3_bind_failure_takes_precedence (e : String) (rest : List FetchEvent) :
    resolveFetch (FetchEvent.bindFailed e :: rest) = FetchResult.failed e := by
  rw [resolveFetch, List.foldl_cons]
  exact foldl_fireFetch_resolved (fireFetch FetchResult.pending (FetchEvent.bindFailed e))
    (by simp [fireFetch]) rest

/-- C7: a scheme other than http and https makes _getEndpoint raise
SchemeNotSupported with an empty side-effect trace: no proxy-port
resolution is started, hence no TCP connection and no circuit bind. -/
theorem C7_unsupported_scheme_fails_before_network (cfg : AgentConfig)
    (host : String) (port : Nat) (scheme : String)
    (hostArg : Option String) (portArg : Option Nat)
    (h1 : scheme ≠ "http") (h2 : scheme ≠ "https") :
    getEndpoint cfg (ParsedURI.parsed host port scheme) hostArg portArg
      = ([], Except.error (AgentError.schemeNotSupported "unsupported scheme" scheme)) := by
  simp [getEndpoint, h1, h2]

/-- Witness for C7 at the ftp scheme. -/
theorem C7_unsupported_scheme_fails_before_network_witness :
    getEndpoint ⟨false, true, []⟩ (ParsedURI.parsed "example.com" 21 "ftp") none none
      = ([], Except.error (AgentError.schemeNotSupported "unsupported scheme" "ftp")) :=
  C7_unsupported_scheme_fails_before_network ⟨false, true, []⟩ "example.com" 21 "ftp"
    none none (by decide) (by decide)

/-- C9: for https the onion-routed endpoint is wrapped in TLS with a
policy built for the request host and port, preferring the wrap context
factory, falling back to the HTTPS policy, and raising a fatal
NotImplementedError when neither is configured; for http the endpoint
is used unwrapped. -/
theorem C9_https_tls_wrap_http_plain (cfg : AgentConfig) (host : String) (port : Nat) :
    getEndpoint cfg (ParsedURI.parsed host port "https") none none
      = ([AgentEvent.proxyPortResolve],
         if cfg.hasWrapContextFactory = true then
           Except.ok (AgentEndpoint.tlsWrapped (TLSPolicy.wrapContext (some host) (some port))
             (AgentEndpoint.onionRouted (some host) (some port) cfg.path))
         else if cfg.hasPolicyForHTTPS = true then
           Except.ok (AgentEndpoint.tlsWrapped (TLSPolicy.browserLikeFor (some host) (some port))
             (AgentEndpoint.onionRouted (some host) (some port) cfg.path))
         else
           Except.error (AgentError.notImplementedTLS "Cannot create a TLS validation policy.")) ∧
    getEndpoint cfg (ParsedURI.parsed host port "http") none none
      = ([AgentEvent.proxyPortResolve],
         Except.ok (AgentEndpoint.onionRouted (some host) (some port) cfg.path)) := by
  constructor
  · cases hw : cfg.hasWrapContextFactory <;> cases hp : cfg.hasPolicyForHTTPS <;>
      simp [getEndpoint, hw, hp]
  · simp [getEndpoint]

/-- A digit string is never the DEFAULT sentinel. -/
theorem pyIsDigit_ne_DEFAULT (s : String) (h : pyIsDigit s = true) : s ≠ "DEFAULT" := by
  intro he
  rw [he] at h
  exact absurd h (by decide)

/-- C8: a list SocksPort value resolves to the integer value of its
first all-digit entry; the scalar DEFAULT sentinel resolves to 9050; any
other scalar digit string resolves to its integer value; and the
resulting endpoint is bound to localhost. -/
theorem C8_proxy_port_resolution (l : List String) (d s : String)
    (conf : SocksPortConf) (p : Nat)
    (h1 : l.find? pyIsDigit = some d)
    (h2 : pyIsDigit s = true)
    (h3 : extract_port_value conf = Except.ok p) :
    extract_port_value (SocksPortConf.listed l) = Except.ok (pyInt d) ∧
    extract_port_value (SocksPortConf.scalar "DEFAULT") = Except.ok 9050 ∧
    extract_port_value (SocksPortConf.scalar s) = Except.ok (pyInt s) ∧
    get_orport_endpoint conf = Except.ok (TCP4ClientEndpoint.mk "127.0.0.1" p) := by
  have hd : pyIsDigit d = true := List.find?_some h1
  refine ⟨?_, ?_, ?_, ?_⟩
  · simp [extract_port_value, h1, pyIsDigit_ne_DEFAULT d hd, pyIntE, hd]
  · simp [extract_port_value]
  · simp [extract_port_value, pyIsDigit_ne_DEFAULT s h2, pyIntE, h2]
  · simp [get_orport_endpoint, h3, Except.map]

/-- Witness for C8 on the spec examples: list with a leading numeric
entry, the DEFAULT sentinel, and the scalar 9051. -/
theorem C8_proxy_port_resolution_witness :
    extract_port_value (SocksPortConf.listed ["9050", "unix:/x"]) = Except.ok (pyInt "9050") ∧
    extract_port_value (SocksPortConf.scalar "DEFAULT") = Except.ok 9050 ∧
    extract_port_value (SocksPortConf.scalar "9051") = Except.ok (pyInt "9051") ∧
    get_orport_endpoint (SocksPortConf.scalar "9051")
      = Except.ok (TCP4ClientEndpoint.mk "127.0.0.1" 9051) :=
  C8_proxy_port_resolution ["9050", "unix:/x"] "9050" "9051"
    (SocksPortConf.scalar "9051") 9051 (by decide) (by decide) (by decide)

/-- C10: a list value with no all-digit entry, such as a lone DEFAULT
sentinel or a unix socket entry, makes resolution raise StopIteration
rather than resolve to 9050, and a DEFAULT entry in a list is skipped in
favour of a later digit entry. -/
theorem C10_list_default_not_honored (l : List String)
    (h : ∀ x ∈ l, pyIsDigit x = false) :
    extract_port_value (SocksPortConf.listed l) = Except.error PyErr.stopIteration ∧
    extract_port_value (SocksPortConf.listed ["DEFAULT"]) = Except.error PyErr.stopIteration ∧
    extract_port_value (SocksPortConf.listed ["unix:/x"]) = Except.error PyErr.stopIteration ∧
    extract_port_value (SocksPortConf.listed ["DEFAULT", "9051"]) = Except.ok 9051 := by
  have hn : l.find? pyIsDigit = none := by
    rw [List.find?_eq_none]
    intro x hx
    simp [h x hx]
  exact ⟨by simp [extract_port_value, hn], by decide, by decide, by decide⟩

/-- Witness for C10 at the one-element DEFAULT list. -/
theorem C10_list_default_not_honored_witness :
    extract_port_value (SocksPortConf.listed ["DEFAULT"]) = Except.error PyErr.stopIteration ∧
    extract_port_value (SocksPortConf.listed ["DEFAULT"]) = Except.error PyErr.stopIteration ∧
    extract_port_value (SocksPortConf.listed ["unix:/x"]) = Except.error PyErr.stopIteration ∧
    extract_port_value (SocksPortConf.listed ["DEFAULT", "9051"]) = Except.ok 9051 :=
  C10_list_default_not_honored ["DEFAULT"] (by decide)
